import Mathlib

/-!
Verification of the OpenAI streaming adapter in `src/utils/server/index.ts`.

The development shallowly embeds the adapter: parsed JSON values become an
inductive `Json`, JavaScript property access / truthiness / string coercion
become explicit functions on `Json`, the outbound request construction and
the response handling of `OpenAIStream` become pure Lean functions, and the
`ReadableStream` controller becomes an explicit state machine folded over
the parsed server-sent events.
-/

set_option linter.unusedVariables false

/-- A JSON value, as produced by the JavaScript builtin JSON.parse.
Numbers are modelled as integers (the only numbers the adapter manipulates
are integral); objects are duplicate-free key/value lists in insertion
order, which is what JSON.parse yields. -/
inductive Json where
  | null : Json
  | bool : Bool → Json
  | num : Int → Json
  | str : String → Json
  | arr : List Json → Json
  | obj : List (String × Json) → Json

/-- A JavaScript value reachable while the adapter walks parsed JSON:
either `undefined` (an absent property) or a JSON value. -/
inductive JsValue where
  | undef : JsValue
  | val : Json → JsValue

/-- Spec-side field accessor on a JSON value: the value of key `k` when the
value is an object that has the key, otherwise `none` (absent). -/
def Json.getObj : Json → String → Option Json
  | .obj fs, k => (fs.find? (fun p => p.1 = k)).map (fun p => p.2)
  | _, _ => none

/-- Spec-side index accessor: element `i` when the value is an array long
enough, otherwise `none`. -/
def Json.idx : Json → Nat → Option Json
  | .arr xs, i => xs.get? i
  | _, _ => none

/-- Lift an optional JSON value to a JavaScript value (`none` = undefined). -/
def jsOfOpt : Option Json → JsValue
  | none => .undef
  | some v => .val v

/-- JavaScript property read `v[k]`. Reading from `undefined` or `null`
throws a TypeError (`.error ()`); reading an absent key from an object, or
any of the keys the adapter uses from another value, yields `undefined`.
(The keys read by the adapter — choices, finish_reason, delta, content,
error, message, type, param, code, value, statusText — are not built-in
properties of primitives or arrays.) -/
def jsGetField : JsValue → String → Except Unit JsValue
  | .undef, _ => .error ()
  | .val .null, _ => .error ()
  | .val (.obj fs), k =>
      .ok (match fs.find? (fun p => p.1 = k) with
        | some p => .val p.2
        | none => .undef)
  | .val _, _ => .ok (jsOfOpt none)

/-- JavaScript index read `v[i]`. Indexing `undefined` or `null` throws; an
array yields its element (or `undefined` past the end); a string yields a
one-character string (or `undefined` past the end); an object looks the
numeral up as a key; other primitives yield `undefined`. -/
def jsIndex : JsValue → Nat → Except Unit JsValue
  | .undef, _ => .error ()
  | .val .null, _ => .error ()
  | .val (.arr xs), i =>
      .ok (match xs.get? i with
        | some x => .val x
        | none => .undef)
  | .val (.str s), i =>
      .ok (match s.data.get? i with
        | some c => .val (.str (String.singleton c))
        | none => .undef)
  | .val (.obj fs), i =>
      .ok (match fs.find? (fun p => p.1 = toString i) with
        | some p => .val p.2
        | none => .undef)
  | .val _, _ => .ok (jsOfOpt none)

/-- JavaScript loose-equality-to-null test: `x != null` is false exactly
when `x` is `null` or `undefined`. -/
def jsNullish : JsValue → Bool
  | .undef => true
  | .val .null => true
  | _ => false

/-- JavaScript truthiness of a value obtained from parsed JSON. -/
def jsTruthy : JsValue → Bool
  | .undef => false
  | .val .null => false
  | .val (.bool b) => b
  | .val (.num n) => n != 0
  | .val (.str s) => s != ""
  | .val (.arr _) => true
  | .val (.obj _) => true

mutual

/-- JavaScript ToString on a parsed-JSON value: `null`/booleans/numbers
print their literals, strings are themselves, arrays join their elements
with commas (null elements printing empty), plain objects print
"[object Object]". -/
def jsToString : Json → String
  | .null => "null"
  | .bool b => if b then "true" else "false"
  | .num n => toString n
  | .str s => s
  | .arr xs => jsJoinArr xs
  | .obj _ => "[object Object]"

/-- Array.prototype.join with separator ",": elements convert via ToString,
except null, which contributes the empty string. -/
def jsJoinArr : List Json → String
  | [] => ""
  | [Json.null] => ""
  | [x] => jsToString x
  | Json.null :: xs => "," ++ jsJoinArr xs
  | x :: xs => jsToString x ++ "," ++ jsJoinArr xs

end

/-- ToString of a value interpolated into a template literal: `undefined`
prints "undefined", other values via `jsToString`. -/
def templateToString : JsValue → String
  | .undef => "undefined"
  | .val v => jsToString v

/-- UTF-8 encoding of one character, as a list of byte values. -/
def utf8Char (c : Char) : List Nat :=
  let n := c.toNat
  if n < 0x80 then [n]
  else if n < 0x800 then [0xC0 + n / 0x40, 0x80 + n % 0x40]
  else if n < 0x10000 then
    [0xE0 + n / 0x1000, 0x80 + (n / 0x40) % 0x40, 0x80 + n % 0x40]
  else
    [0xF0 + n / 0x40000, 0x80 + (n / 0x1000) % 0x40,
     0x80 + (n / 0x40) % 0x40, 0x80 + n % 0x40]

/-- UTF-8 encoding of a string, as a list of byte values. This is what
`new TextEncoder().encode` produces. -/
def utf8Bytes (s : String) : List Nat :=
  (s.data.map utf8Char).flatten

/-- The argument coercion of `TextEncoder.encode` (WebIDL
`optional USVString input = ""`): `undefined` selects the default empty
string, any other value converts via ToString. -/
def encodeArg : JsValue → String
  | .undef => ""
  | .val v => jsToString v

/-- The class `OpenAIError extends Error` of the source: the four values
passed to the constructor. TypeScript's field annotations are not enforced
at run time, so the fields hold whatever JavaScript values were passed. -/
structure OpenAIError where
  message : JsValue
  type : JsValue
  param : JsValue
  code : JsValue

/-- One item delivered by the eventsource-parser to `onParse`: a
`ParsedEvent` (SSE type 'event') or a `ReconnectInterval`. For a
`ParsedEvent` we carry the result of the builtin JSON.parse on its `data`
field: the parsed value, or the message of the thrown SyntaxError when the
data is not valid JSON (JSON.parse is a JavaScript builtin, external to the
repository, so events carry its result). -/
inductive SSEItem where
  | event : Except String Json → SSEItem
  | reconnectInterval : Nat → SSEItem

/-- The exception caught by the `catch (e)` around the event handling: the
SyntaxError of a failed JSON.parse, or a TypeError from a property access
on undefined/null. -/
inductive ErrCause where
  | parseError : String → ErrCause
  | typeError : ErrCause

/-- State of the ReadableStream controller: "readable" until `close()` or
`error()` is called. -/
inductive StreamStatus where
  | readable : StreamStatus
  | closed : StreamStatus
  | errored : ErrCause → StreamStatus

/-- Observable state of the output ReadableStream: the byte chunks enqueued
so far, and the controller status. -/
structure CtrlState where
  emitted : List (List Nat)
  status : StreamStatus

/-- What the body of `onParse` decides to do with a successfully parsed
event: `controller.close()` or `controller.enqueue(encode text)`. -/
inductive EventAction where
  | close : EventAction
  | enqueue : String → EventAction

/-- The access path of `onParse` on one parsed JSON value `json`:
`json.choices[0].finish_reason` is read and loosely compared to null; when
it is nullish, `json.choices[0].delta.content` is read and encoded. Any
TypeError along the path is `.error ()`. (The source re-reads
`json.choices[0]` for the second path; the reads are pure, so one read
suffices.) -/
def handleEvent (j : Json) : Except Unit EventAction :=
  match jsGetField (JsValue.val j) "choices" with
  | .error e => .error e
  | .ok choices =>
    match jsIndex choices 0 with
    | .error e => .error e
    | .ok c0 =>
      match jsGetField c0 "finish_reason" with
      | .error e => .error e
      | .ok fr =>
        if jsNullish fr then
          match jsGetField c0 "delta" with
          | .error e => .error e
          | .ok delta =>
            match jsGetField delta "content" with
            | .error e => .error e
            | .ok content => .ok (.enqueue (encodeArg content))
        else
          .ok .close

/-- One call of `onParse`. Reconnect-interval items are ignored
(`event.type === 'event'` fails). On a readable controller a parse error or
a TypeError reaches `controller.error(e)`; a non-null finish reason reaches
`controller.close()`; otherwise the encoded content is enqueued. Once the
controller is closed or errored, `close()`/`enqueue()` throw a TypeError
that the `catch` routes to `controller.error(e)`, which is a no-op on a
stream that is no longer readable — so the state is unchanged. -/
def stepEvent (st : CtrlState) (it : SSEItem) : CtrlState :=
  match it with
  | .reconnectInterval _ => st
  | .event parsed =>
    match st.status with
    | .readable =>
      match parsed with
      | .error e => { st with status := .errored (.parseError e) }
      | .ok j =>
        match handleEvent j with
        | .error _ => { st with status := .errored .typeError }
        | .ok .close => { st with status := .closed }
        | .ok (.enqueue s) => { st with emitted := st.emitted ++ [utf8Bytes s] }
    | _ => st

/-- The whole `start(controller)` body of the ReadableStream on a 200
response: every chunk of the body is fed to the parser, so `onParse` runs
on every parsed item in arrival order. -/
def processEvents (events : List SSEItem) : CtrlState :=
  events.foldl stepEvent ⟨[], .readable⟩

/-- The upstream HTTP response, as the adapter observes it. `bodyJson` is
the result of `res.json()` (the parsed body, or the rejection message when
the body is not JSON); `rawBody` is the decoded body text it was parsed
from; `events` are the items the eventsource-parser produces from the body
on the 200 path. `statusText` is the HTTP status text of the response — the
adapter never reads it (see `respond`). -/
structure Response where
  status : Nat
  statusText : String
  rawBody : String
  bodyJson : Except String Json
  events : List SSEItem

/-- Result of one adapter call after the response arrived: the returned
ReadableStream (described by its full observable state), a thrown
`OpenAIError`, a thrown generic `Error` with its message, or an unhandled
JavaScript exception (SyntaxError/TypeError) escaping the function. -/
inductive AdapterOutcome where
  | stream : CtrlState → AdapterOutcome
  | openAIError : OpenAIError → AdapterOutcome
  | genericError : String → AdapterOutcome
  | jsError : String → AdapterOutcome

/-- Response handling of `OpenAIStream`. On status ≠ 200 the body is parsed
(`await res.json()`); `if (result.error)` throws an `OpenAIError` from the
error object's four fields when `result.error` is truthy; otherwise the
generic branch evaluates
 `decoder.decode(result?.value) || result.statusText`:
`result?.value` is a JSON value or undefined, `TextDecoder.decode` of
undefined is "" (and of any non-BufferSource JSON value throws a
TypeError), so the message falls through to the `statusText` property OF
THE PARSED BODY (not of the response), interpolated into the template. On
status 200 the ReadableStream over the parsed events is returned. -/
def respond (resp : Response) : AdapterOutcome :=
  if resp.status ≠ 200 then
    match resp.bodyJson with
    | .error e => .jsError e
    | .ok result =>
      match jsGetField (JsValue.val result) "error" with
      | .error _ => .jsError "TypeError"
      | .ok errv =>
        if jsTruthy errv then
          match jsGetField errv "message", jsGetField errv "type",
                jsGetField errv "param", jsGetField errv "code" with
          | .ok m, .ok t, .ok p, .ok c => .openAIError ⟨m, t, p, c⟩
          | _, _, _, _ => .jsError "TypeError"
        else
          match jsGetField (JsValue.val result) "value" with
          | .error _ => .jsError "TypeError"
          | .ok vv =>
            match vv with
            | .undef =>
              match jsGetField (JsValue.val result) "statusText" with
              | .error _ => .jsError "TypeError"
              | .ok stv =>
                  .genericError
                    ("OpenAI API returned an error: " ++ templateToString stv)
            | .val _ => .jsError "TypeError"
  else
    .stream (processEvents resp.events)

/-- Modelled from the spec: the process-wide configuration module
`utils/app/const` (not under src/) supplying OPENAI_API_HOST,
OPENAI_API_TYPE, AZURE_DEPLOYMENT_ID, OPENAI_API_VERSION,
OPENAI_ORGANIZATION, and the environment fallback key
`process.env.OPENAI_API_KEY` ("API host URL, API flavor (default vs
alternate), deployment id and API version (alternate flavor only),
organization id (default flavor only), default API key (environment
fallback)"). The flavor is the string compared against 'openai'/'azure';
the organization is the empty string when not configured; the environment
key is `none` when the variable is unset (JavaScript `undefined`). -/
structure Config where
  apiHost : String
  apiType : String
  azureDeploymentId : String
  apiVersion : String
  organization : String
  envApiKey : Option String

/-- Modelled from the spec: the `Message` record of `types/chat` (not under
src/) — "each a role tag plus content string". -/
structure Message where
  role : String
  content : String

/-- Modelled from the spec: the `OpenAIModel` record of `types/openai` (not
under src/) — "a chosen model identifier"; only its `id` field is read. -/
structure OpenAIModel where
  id : String

/-- The fixed system-prompt template literal embedded in the request body
(lines 56–140 of the source), verbatim. -/
def assessorPrompt : String :=
  "\x7b\n            \"name\": \"IELTS Writing Excellence Assessor\",\n            \"description\": \"This assessor is an expert in evaluating IELTS writing tasks, utilizing a deep understanding of IELTS writing standards and significant experience in guiding students towards superior writing skills and improved IELTS scores.\",\n            \"evaluationCriteria\": \x7b\n                \"Task Achievement\": \x7b\n                    \"description\": \"Assesses the extent to which the input answers the question, maintaining a clear position throughout, including supportive details and examples.\",\n                    \"scoreRange\": \"0-9\"\n                \x7d,\n                \"Coherence and Cohesion\": \x7b\n                    \"description\": \"Examines logical organization, effective paragraphing, clearly defined central ideas for each paragraph, and appropriate use of cohesive devices.\",\n                    \"scoreRange\": \"0-9\"\n                \x7d,\n                \"Lexical Resource\": \x7b\n                    \"description\": \"Evaluates the range and precision of vocabulary, suitability of word choice, and the diversity in language use.\",\n                    \"scoreRange\": \"0-9\"\n                \x7d,\n                \"Grammatical Range and Accuracy\": \x7b\n                    \"description\": \"Investigates the range and accuracy of grammatical structures, considering any grammatical errors, and the complexity of grammar used.\",\n                    \"scoreRange\": \"0-9\"\n                \x7d\n            \x7d,\n            \"inputParams\": \x7b\n                \"%question\": \"The provided IELTS writing question is represented as \x27%question\x27.\",\n                \"%answer\": \"The student\x27s response to the question is represented as \x27%answer\x27.\"\n            \x7d,\n            \"outputs\": \x7b\n                \"score\": \x7b\n                    \"description\": \"The score given to the student\x27s writing based on the IELTS writing criteria.\",\n                    \"range\": \"0-9\",\n                    \"score\": \"%number between 0-9\"\n                \x7d,\n                \"scoringRationale\": \x7b\n                    \"description\": \"An explanation for the score under each evaluation criterion and an overall justification in accordance with IELTS writing standards.\",\n                    \"outputExample\": [\n                        \x7b\n                            \"criterion\": \"Task Fulfillment\",\n                            \"score\": \"%number between 0-9\",\n                            \"rationale\": \"The student\x27s response is well-structured and thoroughly developed, showcasing a clear viewpoint and inclusive of relevant details and examples.\"\n                        \x7d,\n                        \x7b\n                            \"criterion\": \"Coherence and Cohesion\",\n                            \"score\": \"%number between 0-9\",\n                            \"rationale\": \"The student\x27s response is logically structured, with a clear central theme within each paragraph and apt use of cohesive devices.\"\n                        \x7d,\n                        \x7b\n                            \"criterion\": \"Lexical Resource\",\n                            \"score\": \"%number between 0-9\",\n                            \"rationale\": \"The student\x27s response demonstrates a wide range of vocabulary, with appropriate word selection and lexical variations.\"\n                        \x7d,\n                        \x7b\n                            \"criterion\": \"Grammatical Range and Accuracy\",\n                            \"score\": \"%number between 0-9\",\n                            \"rationale\": \"The student\x27s response demonstrates a wide range of grammar, with few grammatical errors and the complexity of used grammatical structures.\"\n                        \x7d,\n                        \x7b\n                            \"criterion\": \"Overall\",\n                            \"score\": \"%number between 0-9\",\n                            \"rationale\": \"The overall student\x27s response is coherently organized, well-elaborated, exhibits broad range of vocabulary and grammar with minimal errors.\"\n                        \x7d\n                    ]\n                \x7d,\n                \"errorSentenceRevision\": \x7b\n                    \"description\": \"Revisions of the student\x27s writing based on IELTS standards, presented in markdown format with erroneous parts highlighted.\",\n                    \"outputFormat\": \"markdown table format\",\n                    \"outputRequirements\": [\n                        \"Only sentences with errors need to be included. Sentences without errors should be ignored in the output.\",\n                        \"The output should be in HTML Table format. The revised words or sentences should be highlighted using the <span> tag with a style attribute of \x27color:\x237B68EE;background:black\x27.\"\n                    ],\n                    \"outputExample\": [\x7b\n                        \"original\": \"%(the original sentence)\",\n                        \"revised\": \"%(the revised sentence)\",\n                        \"reason\": \"%(the reason for revision)\",\n                        \"errorType\": \"%(the type of error)\"\n                    \x7d]\n                \x7d,\n                \"benchmarkEssay\": \x7b\n                    \"description\": \"A model essay adhering to IELTS writing standards that showcases an ideal response, presented in markdown format.\",\n                    \"outputFormat\": \"markdown\"\n                \x7d\n            \x7d,\n            \"requirements\": [\n                \"DO REMEMBER OUTPUT THE RESULT IN **markdown** FORMAT.\"\n            ]\n        \x7d\n        "

/-- The key actually sent: `key ? key : process.env.OPENAI_API_KEY`,
interpolated into a template literal (an unset environment variable prints
"undefined"). -/
def effectiveKey (cfg : Config) (key : String) : String :=
  if key = "" then cfg.envApiKey.getD "undefined" else key

/-- The request URL: the azure flavor overwrites the default
`/v1/chat/completions` address with the deployments address. -/
def requestUrl (cfg : Config) : String :=
  if cfg.apiType = "azure" then
    cfg.apiHost ++ "/openai/deployments/" ++ cfg.azureDeploymentId ++
      "/chat/completions?api-version=" ++ cfg.apiVersion
  else
    cfg.apiHost ++ "/v1/chat/completions"

/-- The header object literal: Content-Type always; `Authorization: Bearer`
only for the 'openai' flavor; `api-key` only for the 'azure' flavor;
`OpenAI-Organization` only for the 'openai' flavor with a truthy (=
non-empty) organization. The conditional spreads contribute nothing when
their condition is falsy. -/
def requestHeaders (cfg : Config) (key : String) : List (String × String) :=
  [("Content-Type", "application/json")]
    ++ (if cfg.apiType = "openai" then
          [("Authorization", "Bearer " ++ effectiveKey cfg key)]
        else [])
    ++ (if cfg.apiType = "azure" then
          [("api-key", effectiveKey cfg key)]
        else [])
    ++ (if cfg.apiType = "openai" ∧ cfg.organization ≠ "" then
          [("OpenAI-Organization", cfg.organization)]
        else [])

/-- JavaScript object-literal key assignment: writing an existing key
replaces its value in place (keeping its insertion position), a new key is
appended. -/
def jsObjSet (fs : List (String × Json)) (k : String) (v : Json) :
    List (String × Json) :=
  if fs.any (fun p => p.1 = k) then
    fs.map (fun p => if p.1 = k then (k, v) else p)
  else
    fs ++ [(k, v)]

/-- The synthetic system message prepended to the messages array. -/
def systemMessageJson : Json :=
  .obj [("role", .str "system"), ("content", .str assessorPrompt)]

/-- A caller message as it is serialized into the request body. -/
def messageJson (m : Message) : Json :=
  .obj [("role", .str m.role), ("content", .str m.content)]

/-- The object passed to JSON.stringify as the request body. The object
literal writes `model: model.id` first (only for the 'openai' flavor) and
`model: 'gpt-3.5-turbo-16k'` last, so the later write overwrites the
caller's model; `max_tokens`, `temperature` and `stream` are literal
constants; the caller's temperature argument is never used. -/
def requestBody (cfg : Config) (model : OpenAIModel) (messages : List Message) :
    Json :=
  let fs : List (String × Json) :=
    if cfg.apiType = "openai" then [("model", .str model.id)] else []
  let fs := jsObjSet fs "messages"
    (.arr (systemMessageJson :: messages.map messageJson))
  let fs := jsObjSet fs "max_tokens" (.num 4000)
  let fs := jsObjSet fs "temperature" (.num 0)
  let fs := jsObjSet fs "stream" (.bool true)
  let fs := jsObjSet fs "model" (.str "gpt-3.5-turbo-16k")
  .obj fs

/-- The outbound fetch: method, URL, headers and (pre-stringify) body. -/
structure OutboundRequest where
  method : String
  url : String
  headers : List (String × String)
  body : Json

/-- The request `OpenAIStream` sends. -/
def outboundRequest (cfg : Config) (model : OpenAIModel) (key : String)
    (messages : List Message) : OutboundRequest :=
  { method := "POST"
    url := requestUrl cfg
    headers := requestHeaders cfg key
    body := requestBody cfg model messages }

/-- The adapter `OpenAIStream(model, systemPrompt, temperature, key,
messages)`: it sends `outboundRequest` and handles the response `resp` via
`respond`. The `systemPrompt` and `temperature` arguments are accepted but
never read by the source, so they do not occur on the right-hand side. -/
def OpenAIStream (cfg : Config) (model : OpenAIModel) (systemPrompt : String)
    (temperature : Int) (key : String) (messages : List Message)
    (resp : Response) : OutboundRequest × AdapterOutcome :=
  (outboundRequest cfg model key messages, respond resp)

/-- The JSON path `choices[0]` of an event payload (spec-side reading). -/
def choice0 (j : Json) : Option Json :=
  (j.getObj "choices").bind (fun c => c.idx 0)

/-- The JSON path `choices[0].finish_reason` (spec-side reading; `none` =
absent). -/
def finishReasonOf (j : Json) : Option Json :=
  (choice0 j).bind (fun c => c.getObj "finish_reason")

/-- The JSON path `choices[0].delta.content` (spec-side reading). -/
def deltaContentOf (j : Json) : Option Json :=
  ((choice0 j).bind (fun c => c.getObj "delta")).bind
    (fun d => d.getObj "content")

/-- The event's finish reason is null or absent. -/
def finishNullish (j : Json) : Prop :=
  finishReasonOf j = none ∨ finishReasonOf j = some Json.null

/-- The adapter outcome is a stream that terminated with a failure. -/
def streamFailed : AdapterOutcome → Bool
  | .stream ⟨_, .errored _⟩ => true
  | _ => false

/-- The adapter outcome is a stream that was closed normally. -/
def streamClosedNormally : AdapterOutcome → Bool
  | .stream ⟨_, .closed⟩ => true
  | _ => false

/-- Substring test (used to state what an error message contains). -/
def strContains (h n : String) : Bool :=
  (List.range (h.data.length + 1)).any
    (fun i => n.data.isPrefixOf (h.data.drop i))

/-- A default-flavor configuration used for concrete instances. -/
def cfgW : Config :=
  ⟨"https://api.openai.com", "openai", "", "2023-05-15", "", none⟩

/-- An alternate-flavor (azure) configuration used for concrete instances. -/
def cfgAz : Config :=
  ⟨"https://example.azure.com", "azure", "dep1", "2023-05-15", "", none⟩

/-- A caller-chosen model used for concrete instances. -/
def modelW : OpenAIModel := ⟨"gpt-3.5-turbo"⟩

/-- A data event carrying the fragment "Hel". -/
def contentJson1 : Json :=
  .obj [("choices", .arr [.obj
    [("delta", .obj [("content", .str "Hel")]), ("finish_reason", .null)]])]

/-- A data event carrying the fragment "lo!". -/
def contentJson2 : Json :=
  .obj [("choices", .arr [.obj
    [("delta", .obj [("content", .str "lo!")]), ("finish_reason", .null)]])]

/-- A data event with a non-null finish reason. -/
def finishJson : Json :=
  .obj [("choices", .arr [.obj
    [("delta", .obj []), ("finish_reason", .str "stop")]])]

/-- A data event whose `choices[0].delta` is present but has no `content`
key. -/
def deltaNoContentJson : Json :=
  .obj [("choices", .arr [.obj [("delta", .obj [])]])]

/-- A 200 response streaming "Hel", "lo!", then a finish event. -/
def respC1 : Response :=
  ⟨200, "OK", "data: ...", .error "SyntaxError",
    [.event (.ok contentJson1), .event (.ok contentJson2),
     .event (.ok finishJson)]⟩

/-- A non-200 response with a structured error body. -/
def respC2 : Response :=
  ⟨401, "Unauthorized", "...",
    .ok (.obj [("error", .obj
      [("message", .str "Incorrect API key provided"),
       ("type", .str "invalid_request_error"),
       ("param", .str "api_key"),
       ("code", .str "invalid_api_key")])]), []⟩

/-- A non-200 response whose JSON body has no `error` field. -/
def respC3 : Response :=
  ⟨500, "Internal Server Error", "\x7b\x7d", .ok (.obj []), []⟩

/-- A non-200 response whose error-free JSON body carries a `statusText`
field. -/
def respC3b : Response :=
  ⟨502, "Bad Gateway", "\x7b\"statusText\":\"upstream down\"\x7d",
    .ok (.obj [("statusText", .str "upstream down")]), []⟩

/-- A 200 response with a finish event followed by a malformed data event. -/
def respC4 : Response :=
  ⟨200, "OK", "...", .error "SyntaxError",
    [.event (.ok finishJson),
     .event (.error "SyntaxError: Unexpected token D in JSON at position 0")]⟩

/-- A 200 response with a malformed data event followed by a finish event. -/
def respC5 : Response :=
  ⟨200, "OK", "...", .error "SyntaxError",
    [.event (.error "SyntaxError: Unexpected token D in JSON at position 0"),
     .event (.ok finishJson)]⟩

/-- A 200 response with one well-formed-JSON event whose delta lacks
content. -/
def respC10 : Response :=
  ⟨200, "OK", "...", .error "SyntaxError",
    [.event (.ok deltaNoContentJson)]⟩

theorem getObj_ne_null {j : Json} {k : String} {v : Json}
    (h : j.getObj k = some v) : j ≠ Json.null := by
  intro he
  subst he
  simp [Json.getObj] at h

theorem jsGetField_val (j : Json) (k : String) (h : j ≠ Json.null) :
    jsGetField (JsValue.val j) k = .ok (jsOfOpt (j.getObj k)) := by
  cases j with
  | null => exact absurd rfl h
  | obj fs =>
      simp only [jsGetField, Json.getObj]
      cases fs.find? (fun p => p.1 = k) with
      | none => rfl
      | some p => rfl
  | bool b => rfl
  | num n => rfl
  | str s => rfl
  | arr xs => rfl

theorem jsIndex_of_idx {cs c0 : Json} (h : cs.idx 0 = some c0) :
    jsIndex (JsValue.val cs) 0 = .ok (JsValue.val c0) := by
  cases cs with
  | arr xs =>
      simp only [Json.idx] at h
      simp only [jsIndex, h]
  | null => simp [Json.idx] at h
  | bool b => simp [Json.idx] at h
  | num n => simp [Json.idx] at h
  | str s => simp [Json.idx] at h
  | obj fs => simp [Json.idx] at h

theorem jsNullish_val_false {v : Json} (h : v ≠ Json.null) :
    jsNullish (JsValue.val v) = false := by
  cases v with
  | null => exact absurd rfl h
  | bool b => rfl
  | num n => rfl
  | str s => rfl
  | arr xs => rfl
  | obj fs => rfl

theorem handleEvent_content {j : Json} {s : String}
    (hc : deltaContentOf j = some (Json.str s)) (hf : finishNullish j) :
    handleEvent j = .ok (.enqueue s) := by
  rcases Option.bind_eq_some.mp hc with ⟨d, hd, hcont⟩
  rcases Option.bind_eq_some.mp hd with ⟨c0, hc0, hdelta⟩
  rcases Option.bind_eq_some.mp hc0 with ⟨cs, hcs, hidx⟩
  have hfr : c0.getObj "finish_reason" = none ∨
      c0.getObj "finish_reason" = some Json.null := by
    simpa [finishNullish, finishReasonOf, hc0] using hf
  have h1 := jsGetField_val j "choices" (getObj_ne_null hcs)
  have h2 := jsIndex_of_idx hidx
  have h3 := jsGetField_val c0 "finish_reason" (getObj_ne_null hdelta)
  have h4 := jsGetField_val c0 "delta" (getObj_ne_null hdelta)
  have h5 := jsGetField_val d "content" (getObj_ne_null hcont)
  rcases hfr with h | h <;>
    simp [handleEvent, h1, h2, h3, h4, h5, hcs, hdelta, hcont, h,
      jsOfOpt, jsNullish, encodeArg, jsToString]

theorem handleEvent_close {j : Json} {v : Json}
    (hfr : finishReasonOf j = some v) (hv : v ≠ Json.null) :
    handleEvent j = .ok .close := by
  rcases Option.bind_eq_some.mp hfr with ⟨c0, hc0, hfin⟩
  rcases Option.bind_eq_some.mp hc0 with ⟨cs, hcs, hidx⟩
  have h1 := jsGetField_val j "choices" (getObj_ne_null hcs)
  have h2 := jsIndex_of_idx hidx
  have h3 := jsGetField_val c0 "finish_reason" (getObj_ne_null hfin)
  simp [handleEvent, h1, h2, h3, hcs, hfin, jsOfOpt, jsNullish_val_false hv]

theorem stepEvent_stuck {st : CtrlState} (h : st.status ≠ StreamStatus.readable)
    (it : SSEItem) : stepEvent st it = st := by
  cases it with
  | reconnectInterval ms => rfl
  | event parsed =>
      cases hs : st.status with
      | readable => exact absurd hs h
      | closed => simp [stepEvent, hs]
      | errored e => simp [stepEvent, hs]

theorem foldl_stuck {st : CtrlState} (h : st.status ≠ StreamStatus.readable)
    (l : List SSEItem) : List.foldl stepEvent st l = st := by
  induction l with
  | nil => rfl
  | cons it l ih => rw [List.foldl_cons, stepEvent_stuck h it, ih]

theorem foldl_contentEvents (js : List (Json × String))
    (hc : ∀ p ∈ js, deltaContentOf p.1 = some (Json.str p.2) ∧ finishNullish p.1)
    (acc : List (List Nat)) :
    List.foldl stepEvent ⟨acc, .readable⟩
        (js.map (fun p => SSEItem.event (.ok p.1)))
      = ⟨acc ++ js.map (fun p => utf8Bytes p.2), .readable⟩ := by
  induction js generalizing acc with
  | nil => simp
  | cons p js ih =>
      obtain ⟨h1, h2⟩ := hc p (List.mem_cons_self p js)
      have hstep :
          stepEvent ⟨acc, .readable⟩ (SSEItem.event (.ok p.1))
            = ⟨acc ++ [utf8Bytes p.2], .readable⟩ := by
        simp [stepEvent, handleEvent_content h1 h2]
      rw [List.map_cons, List.foldl_cons, hstep,
        ih (fun q hq => hc q (List.mem_cons_of_mem p hq))]
      simp

theorem utf8Bytes_append (a b : String) :
    utf8Bytes (a ++ b) = utf8Bytes a ++ utf8Bytes b := by
  simp [utf8Bytes, String.data_append]

theorem utf8Bytes_join (l : List String) :
    utf8Bytes (String.join l) = (l.map utf8Bytes).flatten := by
  have key : ∀ (l : List String) (acc : String),
      utf8Bytes (List.foldl (fun r s => r ++ s) acc l)
        = utf8Bytes acc ++ (l.map utf8Bytes).flatten := by
    intro l
    induction l with
    | nil => intro acc; simp
    | cons s l ih =>
        intro acc
        rw [List.foldl_cons, ih, utf8Bytes_append]
        simp
  have h := key l ""
  have hnil : utf8Bytes "" = [] := rfl
  rw [String.join, h, hnil, List.nil_append]

/-- C1: for a 200 response whose event stream is N data events, each with a
non-null string `choices[0].delta.content` and a nullish finish reason,
followed by a final data event with a non-null `choices[0].finish_reason`,
the byte stream returned by `OpenAIStream` equals the UTF-8 encoding of the
concatenation of the N content fragments in arrival order, and then ends
(the stream closes normally). -/
theorem stream_concatenates_fragments (cfg : Config) (model : OpenAIModel)
    (systemPrompt : String) (temperature : Int) (key : String)
    (messages : List Message) (resp : Response)
    (js : List (Json × String)) (fin : Json) (v : Json)
    (h200 : resp.status = 200)
    (hev : resp.events
      = js.map (fun p => SSEItem.event (.ok p.1)) ++ [SSEItem.event (.ok fin)])
    (hc : ∀ p ∈ js, deltaContentOf p.1 = some (Json.str p.2) ∧ finishNullish p.1)
    (hfr : finishReasonOf fin = some v) (hv : v ≠ Json.null) :
    (OpenAIStream cfg model systemPrompt temperature key messages resp).2
      = .stream ⟨js.map (fun p => utf8Bytes p.2), .closed⟩
    ∧ (js.map (fun p => utf8Bytes p.2)).flatten
      = utf8Bytes (String.join (js.map (fun p => p.2))) := by
  constructor
  · show respond resp = _
    rw [respond]
    simp only [h200, ne_eq, not_true_eq_false, if_false, ite_false]
    rw [hev, processEvents, List.foldl_append,
      foldl_contentEvents js hc [], List.nil_append]
    simp [stepEvent, handleEvent_close hfr hv]
  · rw [utf8Bytes_join, List.map_map]
    rfl

/-- The C1 theorem applied at a concrete two-fragment stream. -/
theorem stream_concatenates_fragments_witness :
    (OpenAIStream cfgW modelW "prompt" 1 "k" [] respC1).2
      = .stream
          ⟨[(contentJson1, "Hel"), (contentJson2, "lo!")].map
            (fun p => utf8Bytes p.2), .closed⟩
    ∧ ([(contentJson1, "Hel"), (contentJson2, "lo!")].map
          (fun p => utf8Bytes p.2)).flatten
      = utf8Bytes (String.join ["Hel", "lo!"]) := by
  have hc : ∀ p ∈ [(contentJson1, "Hel"), (contentJson2, "lo!")],
      deltaContentOf p.1 = some (Json.str p.2) ∧ finishNullish p.1 := by
    intro p hp
    rcases List.mem_cons.mp hp with rfl | hp
    · exact ⟨rfl, Or.inr rfl⟩
    rcases List.mem_cons.mp hp with rfl | hp
    · exact ⟨rfl, Or.inr rfl⟩
    cases hp
  exact stream_concatenates_fragments cfgW modelW "prompt" 1 "k" [] respC1
    [(contentJson1, "Hel"), (contentJson2, "lo!")] finishJson (Json.str "stop")
    rfl rfl hc rfl (fun h => Json.noConfusion h)

theorem getObj_is_obj {j : Json} {k : String} {v : Json}
    (h : j.getObj k = some v) : ∃ fs, j = Json.obj fs := by
  cases j with
  | obj fs => exact ⟨fs, rfl⟩
  | null => simp [Json.getObj] at h
  | bool b => simp [Json.getObj] at h
  | num n => simp [Json.getObj] at h
  | str s => simp [Json.getObj] at h
  | arr xs => simp [Json.getObj] at h

/-- C2: a non-200 response whose JSON body holds an `error` object with
message/type/param/code fields m, t, p, c makes `OpenAIStream` fail with an
`OpenAIError` carrying exactly those four fields, and no byte stream is
produced. -/
theorem non200_error_object (cfg : Config) (model : OpenAIModel)
    (systemPrompt : String) (temperature : Int) (key : String)
    (messages : List Message) (resp : Response) (body err : Json)
    (m t p c : String)
    (hst : resp.status ≠ 200) (hb : resp.bodyJson = .ok body)
    (herr : body.getObj "error" = some err)
    (hm : err.getObj "message" = some (Json.str m))
    (ht : err.getObj "type" = some (Json.str t))
    (hp : err.getObj "param" = some (Json.str p))
    (hc : err.getObj "code" = some (Json.str c)) :
    (OpenAIStream cfg model systemPrompt temperature key messages resp).2
      = .openAIError ⟨.val (.str m), .val (.str t), .val (.str p), .val (.str c)⟩
    ∧ ∀ st, (OpenAIStream cfg model systemPrompt temperature key messages
        resp).2 ≠ .stream st := by
  obtain ⟨fs, rfl⟩ := getObj_is_obj hm
  have hout : (OpenAIStream cfg model systemPrompt temperature key messages
      resp).2 = .openAIError
        ⟨.val (.str m), .val (.str t), .val (.str p), .val (.str c)⟩ := by
    show respond resp = _
    rw [respond]
    simp only [hst, if_true, hb,
      jsGetField_val body "error" (getObj_ne_null herr), herr, jsOfOpt,
      jsTruthy,
      jsGetField_val (Json.obj fs) "message" (fun h => Json.noConfusion h), hm,
      jsGetField_val (Json.obj fs) "type" (fun h => Json.noConfusion h), ht,
      jsGetField_val (Json.obj fs) "param" (fun h => Json.noConfusion h), hp,
      jsGetField_val (Json.obj fs) "code" (fun h => Json.noConfusion h), hc]
    rw [if_pos hst]
  refine ⟨hout, ?_⟩
  intro st hcontra
  rw [hout] at hcontra
  exact AdapterOutcome.noConfusion hcontra

/-- The C2 theorem applied at a concrete 401 response. -/
theorem non200_error_object_witness :
    respC2.status ≠ 200
    ∧ (OpenAIStream cfgW modelW "prompt" 1 "k" [] respC2).2
      = .openAIError
          ⟨.val (.str "Incorrect API key provided"),
           .val (.str "invalid_request_error"),
           .val (.str "api_key"), .val (.str "invalid_api_key")⟩ := by
  refine ⟨by decide, ?_⟩
  exact (non200_error_object cfgW modelW "prompt" 1 "k" [] respC2
    (.obj [("error", .obj
      [("message", .str "Incorrect API key provided"),
       ("type", .str "invalid_request_error"),
       ("param", .str "api_key"),
       ("code", .str "invalid_api_key")])])
    (.obj [("message", .str "Incorrect API key provided"),
       ("type", .str "invalid_request_error"),
       ("param", .str "api_key"),
       ("code", .str "invalid_api_key")])
    "Incorrect API key provided" "invalid_request_error" "api_key"
    "invalid_api_key" (by decide) rfl rfl rfl rfl rfl rfl).1

/-- C3 counterexample: for the 500 response with body "{}" (no `error`
field), the generic error message is
"OpenAI API returned an error: undefined" — the code interpolates the
`statusText` property OF THE PARSED BODY, so the message contains neither
the HTTP status text "Internal Server Error" nor any decode of the body. -/
theorem generic_error_counterexample :
    (OpenAIStream cfgW modelW "prompt" 1 "k" [] respC3).2
      = .genericError "OpenAI API returned an error: undefined"
    ∧ strContains "OpenAI API returned an error: undefined" respC3.statusText
        = false
    ∧ strContains "OpenAI API returned an error: undefined" respC3.rawBody
        = false :=
  ⟨rfl, rfl, rfl⟩

/-- C3 (amended): a non-200 response whose body parses as JSON to a
non-null value with no truthy `error` field and no `value` field yields a
generic error whose message is "OpenAI API returned an error: " followed by
the stringification of the body's own `statusText` field ("undefined" when
that field is absent); the HTTP status text of the response is never
consulted. -/
theorem non200_without_error_field (cfg : Config) (model : OpenAIModel)
    (systemPrompt : String) (temperature : Int) (key : String)
    (messages : List Message) (resp : Response) (body : Json)
    (hst : resp.status ≠ 200) (hb : resp.bodyJson = .ok body)
    (hnn : body ≠ Json.null)
    (herr : jsTruthy (jsOfOpt (body.getObj "error")) = false)
    (hval : body.getObj "value" = none) :
    (OpenAIStream cfg model systemPrompt temperature key messages resp).2
      = .genericError ("OpenAI API returned an error: "
          ++ templateToString (jsOfOpt (body.getObj "statusText"))) := by
  show respond resp = _
  rw [respond, if_pos hst]
  cases hopt : body.getObj "error" with
  | none =>
      simp [hb, jsGetField_val body "error" hnn, hopt, jsOfOpt, jsTruthy,
        jsGetField_val body "value" hnn, hval,
        jsGetField_val body "statusText" hnn]
  | some ev =>
      rw [hopt] at herr
      simp only [jsOfOpt] at herr
      simp [hb, jsGetField_val body "error" hnn, hopt, jsOfOpt, herr,
        jsGetField_val body "value" hnn, hval,
        jsGetField_val body "statusText" hnn]

/-- The amended C3 theorem applied at a concrete 502 response whose body
carries a `statusText` field. -/
theorem non200_without_error_field_witness :
    respC3b.status ≠ 200
    ∧ (OpenAIStream cfgW modelW "prompt" 1 "k" [] respC3b).2
      = .genericError ("OpenAI API returned an error: "
          ++ templateToString (jsOfOpt
            ((Json.obj [("statusText", Json.str "upstream down")]).getObj
              "statusText"))) := by
  refine ⟨by decide, ?_⟩
  exact non200_without_error_field cfgW modelW "prompt" 1 "k" [] respC3b
    (.obj [("statusText", .str "upstream down")]) (by decide) rfl
    (fun hx => Json.noConfusion hx) rfl rfl

/-- C4 counterexample: in the 200 response whose events are a finish event
followed by a malformed-JSON data event, the output stream terminates by
closing normally, not with a failure, although the stream contains a
malformed data event. -/
theorem malformed_event_counterexample :
    (OpenAIStream cfgW modelW "prompt" 1 "k" [] respC4).2
      = .stream ⟨[], .closed⟩
    ∧ streamFailed (OpenAIStream cfgW modelW "prompt" 1 "k" [] respC4).2
        = false :=
  ⟨rfl, rfl⟩

/-- C4 (amended): for a 200 response, a data event whose data is not valid
JSON and that arrives while the output stream is still open (no earlier
event closed or errored it) terminates the output stream with a failure
carrying the parse error, and no content fragments from events after the
malformed one are ever emitted. -/
theorem malformed_event_fails_stream (cfg : Config) (model : OpenAIModel)
    (systemPrompt : String) (temperature : Int) (key : String)
    (messages : List Message) (resp : Response)
    (pre post : List SSEItem) (e : String)
    (h200 : resp.status = 200)
    (hev : resp.events = pre ++ SSEItem.event (.error e) :: post)
    (hopen : (processEvents pre).status = .readable) :
    (OpenAIStream cfg model systemPrompt temperature key messages resp).2
      = .stream ⟨(processEvents pre).emitted, .errored (.parseError e)⟩ := by
  show respond resp = _
  rw [respond, if_neg (fun hne => hne h200), hev]
  show AdapterOutcome.stream
      (List.foldl stepEvent (⟨[], .readable⟩ : CtrlState)
        (pre ++ SSEItem.event (.error e) :: post)) = _
  rw [List.foldl_append, List.foldl_cons]
  have hpre : List.foldl stepEvent (⟨[], .readable⟩ : CtrlState) pre
      = ⟨(processEvents pre).emitted, .readable⟩ := by
    rw [show List.foldl stepEvent (⟨[], .readable⟩ : CtrlState) pre
        = processEvents pre from rfl]
    cases hp : processEvents pre with
    | mk em stt =>
        rw [hp] at hopen
        simp only at hopen
        rw [hopen]
  rw [hpre]
  have hstep : stepEvent ⟨(processEvents pre).emitted, .readable⟩
      (SSEItem.event (.error e))
      = ⟨(processEvents pre).emitted, .errored (.parseError e)⟩ := rfl
  rw [hstep, foldl_stuck (by simp) post]

/-- The amended C4 theorem applied at a concrete stream: one good fragment,
then a malformed event, then a finish event that is never consumed. -/
theorem malformed_event_fails_stream_witness :
    (OpenAIStream cfgW modelW "prompt" 1 "k" []
        ⟨200, "OK", "...", .error "SyntaxError",
          [.event (.ok contentJson1),
           .event (.error "SyntaxError: Unexpected token"),
           .event (.ok finishJson)]⟩).2
      = .stream
          ⟨(processEvents [.event (.ok contentJson1)]).emitted,
           .errored (.parseError "SyntaxError: Unexpected token")⟩ := by
  exact malformed_event_fails_stream cfgW modelW "prompt" 1 "k" [] _
    [.event (.ok contentJson1)] [.event (.ok finishJson)]
    "SyntaxError: Unexpected token" rfl rfl rfl

/-- C5 counterexample: in the 200 response whose events are a malformed
data event followed by a finish event, the finish event (the first and only
one with non-null finish_reason) does not close the stream successfully:
the stream has already terminated with the parse failure. -/
theorem finish_event_counterexample :
    (OpenAIStream cfgW modelW "prompt" 1 "k" [] respC5).2
      = .stream ⟨[],
          .errored (.parseError
            "SyntaxError: Unexpected token D in JSON at position 0")⟩
    ∧ streamClosedNormally
        (OpenAIStream cfgW modelW "prompt" 1 "k" [] respC5).2 = false :=
  ⟨rfl, rfl⟩

/-- C5 (amended): for a 200 response, a data event with non-null
`choices[0].finish_reason` that arrives while the output stream is still
open (no earlier event closed or errored it — in particular it is the first
such event) closes the output stream successfully, with no bytes emitted
for that event and no bytes contributed by any later event, even if more
events remain in the response body. -/
theorem finish_event_closes_stream (cfg : Config) (model : OpenAIModel)
    (systemPrompt : String) (temperature : Int) (key : String)
    (messages : List Message) (resp : Response)
    (pre post : List SSEItem) (fin v : Json)
    (h200 : resp.status = 200)
    (hev : resp.events = pre ++ SSEItem.event (.ok fin) :: post)
    (hopen : (processEvents pre).status = .readable)
    (hfr : finishReasonOf fin = some v) (hv : v ≠ Json.null) :
    (OpenAIStream cfg model systemPrompt temperature key messages resp).2
      = .stream ⟨(processEvents pre).emitted, .closed⟩ := by
  show respond resp = _
  rw [respond, if_neg (fun hne => hne h200), hev]
  show AdapterOutcome.stream
      (List.foldl stepEvent (⟨[], .readable⟩ : CtrlState)
        (pre ++ SSEItem.event (.ok fin) :: post)) = _
  rw [List.foldl_append, List.foldl_cons]
  have hpre : List.foldl stepEvent (⟨[], .readable⟩ : CtrlState) pre
      = ⟨(processEvents pre).emitted, .readable⟩ := by
    rw [show List.foldl stepEvent (⟨[], .readable⟩ : CtrlState) pre
        = processEvents pre from rfl]
    cases hp : processEvents pre with
    | mk em stt =>
        rw [hp] at hopen
        simp only at hopen
        rw [hopen]
  rw [hpre]
  have hstep : stepEvent ⟨(processEvents pre).emitted, .readable⟩
      (SSEItem.event (.ok fin))
      = ⟨(processEvents pre).emitted, .closed⟩ := by
    simp [stepEvent, handleEvent_close hfr hv]
  rw [hstep, foldl_stuck (by simp) post]

/-- The amended C5 theorem applied at a concrete stream: one fragment, the
finish event, then a trailing malformed event that is never consumed. -/
theorem finish_event_closes_stream_witness :
    (OpenAIStream cfgW modelW "prompt" 1 "k" []
        ⟨200, "OK", "...", .error "SyntaxError",
          [.event (.ok contentJson1), .event (.ok finishJson),
           .event (.error "SyntaxError: Unexpected token D in JSON")]⟩).2
      = .stream ⟨(processEvents [.event (.ok contentJson1)]).emitted,
          .closed⟩ := by
  exact finish_event_closes_stream cfgW modelW "prompt" 1 "k" [] _
    [.event (.ok contentJson1)]
    [.event (.error "SyntaxError: Unexpected token D in JSON")]
    finishJson (Json.str "stop") rfl rfl rfl rfl
    (fun h => Json.noConfusion h)

theorem handleEvent_err_noChoices {j : Json}
    (h : j.getObj "choices" = none) : handleEvent j = .error () := by
  cases j with
  | null => rfl
  | obj fs =>
      have hfind : fs.find? (fun p => p.1 = "choices") = none := by
        simpa [Json.getObj, Option.map_eq_none] using h
      simp [handleEvent, jsGetField, hfind, jsIndex]
  | bool b => rfl
  | num n => rfl
  | str s => rfl
  | arr xs => rfl

theorem handleEvent_err_emptyChoices {j : Json}
    (h : j.getObj "choices" = some (Json.arr [])) :
    handleEvent j = .error () := by
  have h1 := jsGetField_val j "choices" (getObj_ne_null h)
  simp only [handleEvent, h1, h, jsOfOpt]
  simp [jsIndex, jsGetField]

theorem handleEvent_err_noDelta {j c0 : Json}
    (hc0 : choice0 j = some c0)
    (hfr : c0.getObj "finish_reason" = none
      ∨ c0.getObj "finish_reason" = some Json.null)
    (hd : c0.getObj "delta" = none) :
    handleEvent j = .error () := by
  rcases Option.bind_eq_some.mp hc0 with ⟨cs, hcs, hidx⟩
  have h1 := jsGetField_val j "choices" (getObj_ne_null hcs)
  have h2 := jsIndex_of_idx hidx
  by_cases hnull : c0 = Json.null
  · subst hnull
    simp only [handleEvent, h1, h2, hcs, jsOfOpt]
    simp [jsGetField]
  · have h3 := jsGetField_val c0 "finish_reason" hnull
    have h4 := jsGetField_val c0 "delta" hnull
    rcases hfr with h | h <;>
      simp only [handleEvent, h1, h2, h3, h4, hcs, hd, h, jsOfOpt,
        jsNullish] <;>
      simp [jsGetField]

theorem handleEvent_emptyContent {j c0 d : Json}
    (hc0 : choice0 j = some c0)
    (hfr : c0.getObj "finish_reason" = none
      ∨ c0.getObj "finish_reason" = some Json.null)
    (hd : c0.getObj "delta" = some d) (hdn : d ≠ Json.null)
    (hcont : d.getObj "content" = none) :
    handleEvent j = .ok (.enqueue "") := by
  rcases Option.bind_eq_some.mp hc0 with ⟨cs, hcs, hidx⟩
  have h1 := jsGetField_val j "choices" (getObj_ne_null hcs)
  have h2 := jsIndex_of_idx hidx
  have h3 := jsGetField_val c0 "finish_reason" (getObj_ne_null hd)
  have h4 := jsGetField_val c0 "delta" (getObj_ne_null hd)
  have h5 := jsGetField_val d "content" hdn
  rcases hfr with h | h <;>
    simp only [handleEvent, h1, h2, h3, h4, h5, hcs, hd, hcont, h, jsOfOpt,
      jsNullish] <;>
    simp [jsGetField, encodeArg]

/-- C10 counterexample: a 200 response with the single well-formed-JSON
event data `\x7b"choices":[\x7b"delta":\x7b\x7d\x7d]\x7d` — no
`finish_reason`, no `delta.content` — is handled without error: the stream
does not terminate with a failure; it stays open and an empty byte chunk
(the encoding of the undefined content) is enqueued. -/
theorem unexpected_shape_counterexample :
    (OpenAIStream cfgW modelW "prompt" 1 "k" [] respC10).2
      = .stream ⟨[[]], .readable⟩
    ∧ streamFailed (OpenAIStream cfgW modelW "prompt" 1 "k" [] respC10).2
        = false :=
  ⟨rfl, rfl⟩

/-- C10 (amended): for an event arriving while the output stream is open, a
valid-JSON payload on which the access path throws a TypeError — no
`choices` property, `choices` an empty array, or a `choices[0]` with
nullish finish reason and no `delta` — terminates the stream with a
failure, exactly as a malformed-JSON event does; but a `choices[0]` with
nullish finish reason and a non-null `delta` that merely lacks `content` is
handled without error, enqueueing the empty encoding of the undefined
content. -/
theorem unexpected_shape_events (j : Json) (acc : List (List Nat)) :
    (j.getObj "choices" = none →
      stepEvent ⟨acc, .readable⟩ (SSEItem.event (.ok j))
        = ⟨acc, .errored .typeError⟩)
    ∧ (j.getObj "choices" = some (Json.arr []) →
      stepEvent ⟨acc, .readable⟩ (SSEItem.event (.ok j))
        = ⟨acc, .errored .typeError⟩)
    ∧ (∀ c0, choice0 j = some c0 →
      (c0.getObj "finish_reason" = none
        ∨ c0.getObj "finish_reason" = some Json.null) →
      c0.getObj "delta" = none →
      stepEvent ⟨acc, .readable⟩ (SSEItem.event (.ok j))
        = ⟨acc, .errored .typeError⟩)
    ∧ (∀ c0 d, choice0 j = some c0 →
      (c0.getObj "finish_reason" = none
        ∨ c0.getObj "finish_reason" = some Json.null) →
      c0.getObj "delta" = some d → d ≠ Json.null →
      d.getObj "content" = none →
      stepEvent ⟨acc, .readable⟩ (SSEItem.event (.ok j))
        = ⟨acc ++ [[]], .readable⟩) := by
  refine ⟨?_, ?_, ?_, ?_⟩
  · intro h
    simp [stepEvent, handleEvent_err_noChoices h]
  · intro h
    simp [stepEvent, handleEvent_err_emptyChoices h]
  · intro c0 hc0 hfr hd
    simp [stepEvent, handleEvent_err_noDelta hc0 hfr hd]
  · intro c0 d hc0 hfr hd hdn hcont
    have h := handleEvent_emptyContent hc0 hfr hd hdn hcont
    simp [stepEvent, h, utf8Bytes]

/-- The amended C10 theorem applied at four concrete event payloads. -/
theorem unexpected_shape_events_witness :
    stepEvent ⟨[], .readable⟩ (SSEItem.event (.ok (Json.obj [])))
      = ⟨[], .errored .typeError⟩
    ∧ stepEvent ⟨[], .readable⟩
        (SSEItem.event (.ok (Json.obj [("choices", Json.arr [])])))
      = ⟨[], .errored .typeError⟩
    ∧ stepEvent ⟨[], .readable⟩
        (SSEItem.event (.ok (Json.obj [("choices", Json.arr [Json.obj []])])))
      = ⟨[], .errored .typeError⟩
    ∧ stepEvent ⟨[], .readable⟩ (SSEItem.event (.ok deltaNoContentJson))
      = ⟨[] ++ [[]], .readable⟩ := by
  refine ⟨(unexpected_shape_events (Json.obj []) []).1 rfl,
    (unexpected_shape_events (Json.obj [("choices", Json.arr [])]) []).2.1 rfl,
    (unexpected_shape_events
      (Json.obj [("choices", Json.arr [Json.obj []])]) []).2.2.1
      (Json.obj []) rfl (Or.inl rfl) rfl,
    (unexpected_shape_events deltaNoContentJson []).2.2.2
      (Json.obj [("delta", Json.obj [])]) (Json.obj []) rfl (Or.inl rfl) rfl
      (fun h => Json.noConfusion h) rfl⟩

/-- C6: under the azure flavor the request URL is exactly
`host/openai/deployments/D/chat/completions?api-version=V` and the key
travels in an `api-key` header with no `Authorization` header; under the
openai flavor the URL is exactly `host/v1/chat/completions`, an
`Authorization: Bearer key` header is present, and no `api-key` header is
sent. -/
theorem endpoint_and_header_selection (cfg : Config) (model : OpenAIModel)
    (systemPrompt : String) (temperature : Int) (key : String)
    (messages : List Message) (resp : Response) (hkey : key ≠ "") :
    (cfg.apiType = "azure" →
      (OpenAIStream cfg model systemPrompt temperature key messages resp).1.url
        = cfg.apiHost ++ "/openai/deployments/" ++ cfg.azureDeploymentId
          ++ "/chat/completions?api-version=" ++ cfg.apiVersion
      ∧ ("api-key", key) ∈ (OpenAIStream cfg model systemPrompt temperature
          key messages resp).1.headers
      ∧ ∀ v, ("Authorization", v) ∉ (OpenAIStream cfg model systemPrompt
          temperature key messages resp).1.headers)
    ∧ (cfg.apiType = "openai" →
      (OpenAIStream cfg model systemPrompt temperature key messages resp).1.url
        = cfg.apiHost ++ "/v1/chat/completions"
      ∧ ("Authorization", "Bearer " ++ key) ∈ (OpenAIStream cfg model
          systemPrompt temperature key messages resp).1.headers
      ∧ ∀ v, ("api-key", v) ∉ (OpenAIStream cfg model systemPrompt
          temperature key messages resp).1.headers) := by
  constructor
  · intro hty
    have hne : ¬ cfg.apiType = "openai" := by rw [hty]; decide
    refine ⟨?_, ?_, ?_⟩
    · show requestUrl cfg = _
      rw [requestUrl, if_pos hty]
    · show _ ∈ requestHeaders cfg key
      simp [requestHeaders, hty, hne, effectiveKey, hkey]
    · intro v
      show _ ∉ requestHeaders cfg key
      simp [requestHeaders, hty, hne]
  · intro hty
    have hne : ¬ cfg.apiType = "azure" := by rw [hty]; decide
    refine ⟨?_, ?_, ?_⟩
    · show requestUrl cfg = _
      rw [requestUrl, if_neg hne]
    · show _ ∈ requestHeaders cfg key
      by_cases horg : cfg.organization = "" <;>
        simp [requestHeaders, hty, hne, effectiveKey, hkey, horg]
    · intro v
      show _ ∉ requestHeaders cfg key
      by_cases horg : cfg.organization = "" <;>
        simp [requestHeaders, hty, hne, horg]

/-- The C6 theorem applied at concrete azure and openai configurations. -/
theorem endpoint_and_header_selection_witness :
    ("sk-1" : String) ≠ ""
    ∧ (OpenAIStream cfgAz modelW "p" 1 "sk-1" [] respC2).1.url
      = "https://example.azure.com/openai/deployments/" ++ "dep1"
        ++ "/chat/completions?api-version=" ++ "2023-05-15"
    ∧ ("api-key", "sk-1")
        ∈ (OpenAIStream cfgAz modelW "p" 1 "sk-1" [] respC2).1.headers
    ∧ (OpenAIStream cfgW modelW "p" 1 "sk-1" [] respC2).1.url
      = "https://api.openai.com" ++ "/v1/chat/completions"
    ∧ ("Authorization", "Bearer " ++ "sk-1")
        ∈ (OpenAIStream cfgW modelW "p" 1 "sk-1" [] respC2).1.headers := by
  have haz := (endpoint_and_header_selection cfgAz modelW "p" 1 "sk-1" []
    respC2 (by decide)).1 rfl
  have hoa := (endpoint_and_header_selection cfgW modelW "p" 1 "sk-1" []
    respC2 (by decide)).2 rfl
  exact ⟨by decide, haz.1, haz.2.1, hoa.1, hoa.2.1⟩

/-- C7: whatever model and temperature the caller supplies, and under
either flavor, the request body has max_tokens 4000, temperature 0, stream
true, and model "gpt-3.5-turbo-16k" (the trailing literal overwrites the
caller's model in the object literal). -/
theorem fixed_body_fields (cfg : Config) (model : OpenAIModel)
    (systemPrompt : String) (temperature : Int) (key : String)
    (messages : List Message) (resp : Response) :
    (OpenAIStream cfg model systemPrompt temperature key messages
        resp).1.body.getObj "max_tokens" = some (Json.num 4000)
    ∧ (OpenAIStream cfg model systemPrompt temperature key messages
        resp).1.body.getObj "temperature" = some (Json.num 0)
    ∧ (OpenAIStream cfg model systemPrompt temperature key messages
        resp).1.body.getObj "stream" = some (Json.bool true)
    ∧ (OpenAIStream cfg model systemPrompt temperature key messages
        resp).1.body.getObj "model" = some (Json.str "gpt-3.5-turbo-16k") := by
  by_cases h : cfg.apiType = "openai" <;>
    refine ⟨?_, ?_, ?_, ?_⟩ <;>
    simp [OpenAIStream, outboundRequest, requestBody, jsObjSet, Json.getObj, h]

/-- C8: the messages array of the request body is exactly the synthetic
system message carrying the embedded rubric, followed by the caller's
messages unchanged and in order. -/
theorem messages_array_shape (cfg : Config) (model : OpenAIModel)
    (systemPrompt : String) (temperature : Int) (key : String)
    (messages : List Message) (resp : Response) :
    (OpenAIStream cfg model systemPrompt temperature key messages
        resp).1.body.getObj "messages"
      = some (Json.arr (systemMessageJson :: messages.map messageJson)) := by
  by_cases h : cfg.apiType = "openai" <;>
    simp [OpenAIStream, outboundRequest, requestBody, jsObjSet, Json.getObj, h]

/-- C9: two calls differing only in the systemPrompt argument produce the
same outbound request and, for the same upstream response, the same
outcome: the argument is never read. -/
theorem systemPrompt_has_no_effect (cfg : Config) (model : OpenAIModel)
    (sp1 sp2 : String) (temperature : Int) (key : String)
    (messages : List Message) (resp : Response) :
    OpenAIStream cfg model sp1 temperature key messages resp
      = OpenAIStream cfg model sp2 temperature key messages resp := rfl
